import Mathlib

/-!
Verification of the request-admission pipeline, response envelope, and
validation helpers of the OllamaRemoteAPI Flask application.

The Python sources are shallowly embedded:
* wall-clock timestamps (`time.time()` floats) are modelled as rationals;
* a client's rate record (the `deque` stored in `rate_limit_storage` under
  the client address) is a `List ℚ`; the middleware only ever touches the
  record of the requesting address, so it is passed explicitly;
* the configuration singleton (`config/settings.py`) is an explicit
  structure whose optional environment values are `Option String`;
* JSON values are the inductive `PyValue`; Python truthiness, `dict.get`,
  the `in` operator and `str.strip` are reproduced as functions;
* exceptions raised by the Ollama client library and by `subprocess.run`
  are modelled as outcome parameters handed to the handler, and the
  handlers return the HTTP status plus the JSON body they would send,
  together with a flag recording whether the engine call / subprocess
  was actually reached.
-/

/-- JSON-decodable Python values (the payload domain of the API). -/
inductive PyValue where
  | none
  | bool (b : Bool)
  | int (n : Int)
  | float (q : ℚ)
  | str (s : String)
  | list (xs : List PyValue)
  | dict (kvs : List (String × PyValue))

/-- Outcome of the admission middleware: either the request proceeds to its
handler, or the middleware short-circuits with an HTTP status and error code. -/
inductive Decision where
  | allow
  | deny (status : Nat) (code : String)
deriving DecidableEq

/-- Configuration snapshot (`config/settings.py`, class `Config`).  Optional
environment-style values keep their `Optional[str]` shape. -/
structure Config where
  RATE_LIMIT_ENABLED : Bool
  RATE_LIMIT_PER_MINUTE : Int
  ALLOWED_IPS : Option String
  API_KEY : Option String
  PORT : Int
  DEBUG : Bool
  OLLAMA_BASE_URL : String
  CORS_ORIGINS : String
  LOG_LEVEL : String

/-- The request data consulted by the middleware: path, source address,
`X-API-Key` header and `api_key` query parameter (absent = `none`). -/
structure Request where
  path : String
  remote_addr : String
  header_x_api_key : Option String
  query_api_key : Option String

/-- Python whitespace, the characters for which `str.isspace()` holds and
which `str.strip()` removes: tab through carriage return (09-0d), space,
the separators 1c-1f, next line 85, no-break space a0, ogham space 1680,
the Zs block 2000-200a, line and paragraph separators 2028/2029, narrow
no-break space 202f, medium mathematical space 205f and ideographic space
3000. -/
def pyIsSpace (c : Char) : Bool :=
  let n := c.toNat
  (0x09 ≤ n && n ≤ 0x0d) || n == 0x20 ||
    (0x1c ≤ n && n ≤ 0x1f) || n == 0x85 || n == 0xa0 || n == 0x1680 ||
    (0x2000 ≤ n && n ≤ 0x200a) || n == 0x2028 || n == 0x2029 ||
    n == 0x202f || n == 0x205f || n == 0x3000

def pyStripList (cs : List Char) : List Char :=
  ((cs.dropWhile pyIsSpace).reverse.dropWhile pyIsSpace).reverse

/-- Model of Python `str.strip()`. -/
def pyStrip (s : String) : String :=
  String.mk (pyStripList s.toList)

/-- Model of Python `s.split(sep)` for a one-character separator: split at
every occurrence, keeping empty pieces (so `"".split(',') == ['']`). -/
def pySplitSep (sep : Char) : List Char → List (List Char)
  | [] => [[]]
  | c :: rest =>
      let r := pySplitSep sep rest
      if c = sep then [] :: r
      else
        match r with
        | [] => [[c]]
        | g :: gs => (c :: g) :: gs

def pySplit (sep : Char) (s : String) : List String :=
  (pySplitSep sep s.toList).map String.mk

/-- Model of `Config.get_allowed_ips_list` (settings.py lines 86-96):
`[ip.strip() for ip in cls.ALLOWED_IPS.split(',')]` when the CSV string is
truthy, else the empty list. -/
def get_allowed_ips_list (cfg : Config) : List String :=
  match cfg.ALLOWED_IPS with
  | some s => if s ≠ "" then (pySplit ',' s).map pyStrip else []
  | none => []

/-- The eviction loop of the rate limiter (api.py lines 84-85):
`while request_times and current_time - request_times[0] > 60: popleft()`. -/
def evictOld (current : ℚ) : List ℚ → List ℚ
  | [] => []
  | t :: ts => if 60 < current - t then evictOld current ts else t :: ts

/-- The candidate API key of a request (api.py line 109):
`request.headers.get('X-API-Key') or request.args.get('api_key')` — an
empty (falsy) header value falls through to the query parameter. -/
def provided_key (req : Request) : Option String :=
  match req.header_x_api_key with
  | some h => if h ≠ "" then some h else req.query_api_key
  | none => req.query_api_key

/-- Steps 3 and 4 of `security_middleware` (api.py lines 98-115): the IP
allow-list check followed by the API-key check.  The record is returned
unchanged, as the code no longer touches the rate store at this point. -/
def access_checks (cfg : Config) (req : Request) (record : List ℚ) :
    Decision × List ℚ :=
  let allowed_ips := get_allowed_ips_list cfg
  if !allowed_ips.isEmpty && !allowed_ips.contains req.remote_addr then
    (Decision.deny 403 "UNAUTHORIZED_IP", record)
  else
    match cfg.API_KEY with
    | some key =>
        if key = "" then (Decision.allow, record)
        else if provided_key req = some key then (Decision.allow, record)
        else (Decision.deny 401 "INVALID_API_KEY", record)
    | none => (Decision.allow, record)

/-- The `security_middleware` `before_request` hook (api.py lines 66-115),
specialised to the requesting client's rate record.  Returns the decision
and the record content after the request. -/
def security_middleware (cfg : Config) (req : Request) (record : List ℚ)
    (current : ℚ) : Decision × List ℚ :=
  if req.path = "/health" then (Decision.allow, record)
  else if cfg.RATE_LIMIT_ENABLED then
    let request_times := evictOld current record
    if (request_times.length : ℤ) ≥ cfg.RATE_LIMIT_PER_MINUTE then
      (Decision.deny 429 "RATE_LIMIT_EXCEEDED", request_times)
    else access_checks cfg req (request_times ++ [current])
  else access_checks cfg req record

/-- Python truthiness (`bool(v)`) on the JSON value domain. -/
def pyTruthy : PyValue → Bool
  | PyValue.none => false
  | PyValue.bool b => b
  | PyValue.int n => decide (n ≠ 0)
  | PyValue.float q => decide (q ≠ 0)
  | PyValue.str s => decide (s ≠ "")
  | PyValue.list xs => !xs.isEmpty
  | PyValue.dict kvs => !kvs.isEmpty

/-- First-match association lookup, the behaviour of `dict[k]` / `dict.get(k)`
on a literal-built dict (keys are unique in all dicts the code builds). -/
def pyLookup : List (String × PyValue) → String → Option PyValue
  | [], _ => none
  | (k, v) :: rest, key => if k = key then some v else pyLookup rest key

/-- Python `k in data` for the container types; non-container operands make
the operator raise `TypeError`, modelled as `Except.error`. -/
def pyContains (v : PyValue) (k : String) : Except Unit Bool :=
  match v with
  | PyValue.dict kvs => Except.ok (kvs.any (fun p => p.1 == k))
  | PyValue.list xs =>
      Except.ok (xs.any (fun x => match x with
        | PyValue.str s => s == k
        | _ => false))
  | PyValue.str s => Except.ok (decide (List.IsInfix k.toList s.toList))
  | _ => Except.error ()

/-- The list comprehension `[f for f in required_fields if f not in data]`
of `validate_json_payload`; a raised `TypeError` propagates. -/
def pyMissing (required : List String) (data : PyValue) :
    Except Unit (List String) :=
  match required with
  | [] => Except.ok []
  | f :: rest => do
      let c ← pyContains data f
      let ms ← pyMissing rest data
      Except.ok (if c then ms else f :: ms)

/-- Python `data.get(k)` inside the handlers: dict lookup defaulting to
`None`; `.get` on a non-dict value that passed the payload validator (a
list or string) raises `AttributeError`, whose message is the error. -/
def pyDataGet (data : PyValue) (k : String) : Except String PyValue :=
  match data with
  | PyValue.dict kvs => Except.ok ((pyLookup kvs k).getD PyValue.none)
  | PyValue.list _ => Except.error "'list' object has no attribute 'get'"
  | PyValue.str _ => Except.error "'str' object has no attribute 'get'"
  | _ => Except.error "object has no attribute 'get'"

/-- Python `str(v)` as used in handler f-strings; only the string case is
reachable there because it runs after `validate_model_name` succeeded. -/
def pyStr : PyValue → String
  | PyValue.str s => s
  | PyValue.bool true => "True"
  | PyValue.bool false => "False"
  | PyValue.none => "None"
  | PyValue.int n => toString n
  | PyValue.float q => toString q
  | PyValue.list _ => "<list>"
  | PyValue.dict _ => "<dict>"

/-- Python whitespace-separated `line.split()`: runs of whitespace separate
tokens, leading/trailing whitespace is ignored. -/
def wsplitAux : List Char → List Char → List (List Char)
  | [], acc => if acc.isEmpty then [] else [acc.reverse]
  | c :: cs, acc =>
      if pyIsSpace c then
        if acc.isEmpty then wsplitAux cs [] else acc.reverse :: wsplitAux cs []
      else wsplitAux cs (c :: acc)

def pySplitWS (s : String) : List String :=
  (wsplitAux s.toList []).map String.mk

/-- Whether `needle` occurs as a contiguous substring of `hay`
(Python `needle in hay` on strings). -/
def containsSub (needle hay : String) : Bool :=
  decide (List.IsInfix needle.toList hay.toList)

/-- Model of `create_success_response` (utils.py lines 113-129); the
`time.time()` stamp is the explicit parameter `ts`. -/
def create_success_response (data : PyValue) (message : String) (ts : ℚ) :
    PyValue :=
  PyValue.dict
    [("status", PyValue.str "success"),
     ("message", PyValue.str message),
     ("data", data),
     ("timestamp", PyValue.float ts)]

/-- Model of `create_error_response` (utils.py lines 132-148). -/
def create_error_response (error : String) (code : String) (ts : ℚ) :
    PyValue :=
  PyValue.dict
    [("status", PyValue.str "error"),
     ("error", PyValue.str error),
     ("error_code", PyValue.str code),
     ("timestamp", PyValue.float ts)]

/-- The dangerous substrings rejected by `validate_model_name`. -/
def dangerous_chars : List String := ["/", "\\", "..", "<", ">", "|", "&", ";"]

/-- Model of `validate_model_name` (utils.py lines 151-166): falsy or
non-string values are rejected, then the name must be non-blank after
stripping and contain none of the dangerous substrings. -/
def validate_model_name (v : PyValue) : Bool :=
  if !pyTruthy v then false
  else
    match v with
    | PyValue.str s =>
        decide ((pyStrip s).length > 0) &&
          !(dangerous_chars.any (fun d => containsSub d s))
    | _ => false

def size_names : List String := ["B", "KB", "MB", "GB", "TB"]

/-- The division loop of `format_file_size`
(`while size_bytes >= 1024 and size_index < len(size_names) - 1`).  The
guard `i < 4` bounds the iteration count by four, so fuel 4 realises the
full loop when started at index 0. -/
def ffs_loop : Nat → ℚ → Nat → ℚ × Nat
  | 0, v, i => (v, i)
  | Nat.succ fuel, v, i =>
      if 1024 ≤ v ∧ i < size_names.length - 1 then
        ffs_loop fuel (v / 1024) (i + 1)
      else (v, i)

/-- One-decimal rendering of a non-negative value, Python `f"{v:.1f}"`.
Python rounds the IEEE double to the nearest tenth; every value reaching
this point is an integer divided by a power of 1024, hence dyadic, so no
round-half ties can occur and round-half-up on the exact rational agrees
with the float formatting as long as the integer size converts to float
exactly, i.e. for sizes below 2^53 bytes (8 PB); above that the program's
int-to-float conversion itself rounds and the rendered digits can differ
from the exact rational's. -/
def fmt1nn (v : ℚ) : String :=
  toString ((⌊v * 10 + 1 / 2⌋ : Int).toNat / 10) ++ "." ++
    toString ((⌊v * 10 + 1 / 2⌋ : Int).toNat % 10)

def fmt1 (v : ℚ) : String :=
  if v < 0 then "-" ++ fmt1nn (-v) else fmt1nn v

/-- Model of `format_file_size` (utils.py lines 186-206).  The Python value
starts as an `int` and becomes a `float` after the first division; both are
uniformly modelled as a rational. -/
def format_file_size (size_bytes : ℚ) : String :=
  if size_bytes = 0 then "0 B"
  else
    let p := ffs_loop 4 size_bytes 0
    fmt1 p.1 ++ " " ++ size_names.getD p.2 ""

/-- Shape test for the Success envelope
{status="success", message, data, timestamp}. -/
def isSuccessEnvelope : PyValue → Bool
  | PyValue.dict
      [(k1, PyValue.str s1), (k2, PyValue.str _), (k3, _),
       (k4, PyValue.float _)] =>
      k1 == "status" && s1 == "success" && k2 == "message" && k3 == "data" &&
        k4 == "timestamp"
  | _ => false

/-- Shape test for the Error envelope
{status="error", error, error_code, timestamp}. -/
def isErrorEnvelope : PyValue → Bool
  | PyValue.dict
      [(k1, PyValue.str s1), (k2, PyValue.str _), (k3, PyValue.str _),
       (k4, PyValue.float _)] =>
      k1 == "status" && s1 == "error" && k2 == "error" && k3 == "error_code" &&
        k4 == "timestamp"
  | _ => false

/-- Shape of the bare bodies produced by the `validate_json_payload`
decorator: a one-field object {"error": message}. -/
def isValidatorBody : PyValue → Bool
  | PyValue.dict [(k, PyValue.str _)] => k == "error"
  | _ => false

/-- The "error_code" field of a JSON body, when present and a string. -/
def bodyErrorCode : PyValue → Option String
  | PyValue.dict kvs =>
      match pyLookup kvs "error_code" with
      | some (PyValue.str c) => some c
      | _ => none
  | _ => none

/-- A request body as the handlers see it: the request was not JSON
(`request.is_json` false), or it carried a JSON content type but failed to
parse (`request.get_json()` raises `BadRequest`), or it parsed to a JSON
value. -/
inductive ReqBody where
  | notJson
  | badJson
  | json (v : PyValue)

/-- The body Flask sends for an uncaught `BadRequest`: api.py registers
error handlers only for 404, 405 and 500, so the `BadRequest` raised by
`request.get_json()` on a malformed JSON body is answered with werkzeug's
default HTML error page — not a JSON envelope.  The constant holds that
framework-generated page. -/
def werkzeug_bad_request_body : PyValue :=
  PyValue.str
    ("<!doctype html>\n<html lang=en>\n<title>400 Bad Request</title>\n" ++
     "<h1>Bad Request</h1>\n<p>The browser (or proxy) sent a request that " ++
     "this server could not understand.</p>\n")

/-- An HTTP response: status code plus JSON body. -/
structure HttpResp where
  status : Nat
  body : PyValue

/-- Outcome of a call into the Ollama client library.  `ok` carries the
response dict; `responseError` is `ollama.ResponseError`; `failure` is any
other exception, both carrying `str(e)`. -/
inductive EngineOutcome where
  | ok (resp : List (String × PyValue))
  | responseError (msg : String)
  | failure (msg : String)

/-- Outcome of a `subprocess.run` control-surface call. -/
inductive SubprocOutcome where
  | ok (stdout : String)
  | calledProcessError (msg : String)
  | timeoutExpired
  | failure (msg : String)

/-- Model of the `validate_json_payload` decorator (utils.py lines 36-72).
Non-JSON, falsy or incomplete payloads short-circuit with a bare
{"error": ...} object and status 400; a malformed JSON body makes
`request.get_json()` raise `BadRequest`, which no registered handler
catches, so werkzeug's default 400 page is returned; a `TypeError` raised
by `in` on a non-container JSON value escapes the decorator and is turned
into the Flask 500 error-handler envelope. -/
def validate_json_payload (required : List String) (body : ReqBody) (ts : ℚ) :
    Except HttpResp PyValue :=
  match body with
  | ReqBody.notJson =>
      Except.error ⟨400, PyValue.dict
        [("error", PyValue.str "Content-Type deve essere application/json")]⟩
  | ReqBody.badJson =>
      Except.error ⟨400, werkzeug_bad_request_body⟩
  | ReqBody.json data =>
      if !pyTruthy data then
        Except.error ⟨400, PyValue.dict
          [("error", PyValue.str "Payload JSON mancante o non valido")]⟩
      else
        match pyMissing required data with
        | Except.error _ =>
            Except.error ⟨500, create_error_response
              "Errore interno del server" "INTERNAL_SERVER_ERROR" ts⟩
        | Except.ok [] => Except.ok data
        | Except.ok (f :: rest) =>
            Except.error ⟨400, PyValue.dict
              [("error", PyValue.str
                ("Campi mancanti: " ++ String.intercalate ", " (f :: rest)))]⟩

/-- The response dict assembled by `generate_response` on engine success. -/
def generate_result (model rtext : PyValue) (resp : List (String × PyValue)) :
    PyValue :=
  PyValue.dict
    [("model", model),
     ("response", rtext),
     ("done", (pyLookup resp "done").getD (PyValue.bool true)),
     ("context", (pyLookup resp "context").getD PyValue.none),
     ("total_duration", (pyLookup resp "total_duration").getD PyValue.none),
     ("load_duration", (pyLookup resp "load_duration").getD PyValue.none),
     ("prompt_eval_count", (pyLookup resp "prompt_eval_count").getD PyValue.none),
     ("prompt_eval_duration", (pyLookup resp "prompt_eval_duration").getD PyValue.none),
     ("eval_count", (pyLookup resp "eval_count").getD PyValue.none),
     ("eval_duration", (pyLookup resp "eval_duration").getD PyValue.none)]

/-- Body of the `/generate` handler after payload validation (api.py lines
183-231).  The second component records whether `ollama.generate` was
invoked. -/
def generate_handler (data : PyValue) (engine : EngineOutcome) (ts : ℚ) :
    HttpResp × Bool :=
  match pyDataGet data "model" with
  | Except.error m =>
      (⟨500, create_error_response
        ("Errore interno durante la generazione: " ++ m) "INTERNAL_ERROR" ts⟩,
       false)
  | Except.ok model =>
      if !validate_model_name model then
        (⟨400, create_error_response "Nome del modello non valido"
          "INVALID_MODEL_NAME" ts⟩, false)
      else
        match engine with
        | EngineOutcome.ok resp =>
            match pyLookup resp "response" with
            | some rtext =>
                (⟨200, create_success_response (generate_result model rtext resp)
                  "Testo generato con successo" ts⟩, true)
            | none =>
                (⟨500, create_error_response
                  ("Errore interno durante la generazione: " ++ "'response'")
                  "INTERNAL_ERROR" ts⟩, true)
        | EngineOutcome.responseError e =>
            (⟨500, create_error_response ("Errore del modello Ollama: " ++ e)
              "OLLAMA_ERROR" ts⟩, true)
        | EngineOutcome.failure e =>
            (⟨500, create_error_response
              ("Errore interno durante la generazione: " ++ e)
              "INTERNAL_ERROR" ts⟩, true)

/-- `POST /generate`: payload validation then the handler. -/
def generate_endpoint (body : ReqBody) (engine : EngineOutcome) (ts : ℚ) :
    HttpResp × Bool :=
  match validate_json_payload ["model", "prompt"] body ts with
  | Except.error resp => (resp, false)
  | Except.ok data => generate_handler data engine ts

/-- The response dict assembled by `chat` on engine success. -/
def chat_result (model msg : PyValue) (resp : List (String × PyValue)) :
    PyValue :=
  PyValue.dict
    [("model", model),
     ("message", msg),
     ("done", (pyLookup resp "done").getD (PyValue.bool true)),
     ("total_duration", (pyLookup resp "total_duration").getD PyValue.none),
     ("load_duration", (pyLookup resp "load_duration").getD PyValue.none),
     ("prompt_eval_count", (pyLookup resp "prompt_eval_count").getD PyValue.none),
     ("prompt_eval_duration", (pyLookup resp "prompt_eval_duration").getD PyValue.none),
     ("eval_count", (pyLookup resp "eval_count").getD PyValue.none),
     ("eval_duration", (pyLookup resp "eval_duration").getD PyValue.none)]

/-- Body of the `/chat` handler after payload validation (api.py lines
256-310): model-name validation first, then the messages-format check
`not isinstance(messages, list) or not messages`, then the engine call. -/
def chat_handler (data : PyValue) (engine : EngineOutcome) (ts : ℚ) :
    HttpResp × Bool :=
  match pyDataGet data "model" with
  | Except.error m =>
      (⟨500, create_error_response ("Errore interno durante la chat: " ++ m)
        "INTERNAL_ERROR" ts⟩, false)
  | Except.ok model =>
      match pyDataGet data "messages" with
      | Except.error m =>
          (⟨500, create_error_response ("Errore interno durante la chat: " ++ m)
            "INTERNAL_ERROR" ts⟩, false)
      | Except.ok messages =>
          if !validate_model_name model then
            (⟨400, create_error_response "Nome del modello non valido"
              "INVALID_MODEL_NAME" ts⟩, false)
          else
            match messages with
            | PyValue.list (_ :: _) =>
                match engine with
                | EngineOutcome.ok resp =>
                    match pyLookup resp "message" with
                    | some msg =>
                        (⟨200, create_success_response (chat_result model msg resp)
                          "Chat completata con successo" ts⟩, true)
                    | none =>
                        (⟨500, create_error_response
                          ("Errore interno durante la chat: " ++ "'message'")
                          "INTERNAL_ERROR" ts⟩, true)
                | EngineOutcome.responseError e =>
                    (⟨500, create_error_response
                      ("Errore del modello Ollama: " ++ e) "OLLAMA_ERROR" ts⟩,
                     true)
                | EngineOutcome.failure e =>
                    (⟨500, create_error_response
                      ("Errore interno durante la chat: " ++ e)
                      "INTERNAL_ERROR" ts⟩, true)
            | _ =>
                (⟨400, create_error_response
                  "I messaggi devono essere una lista non vuota"
                  "INVALID_MESSAGES_FORMAT" ts⟩, false)

/-- `POST /chat`: payload validation then the handler. -/
def chat_endpoint (body : ReqBody) (engine : EngineOutcome) (ts : ℚ) :
    HttpResp × Bool :=
  match validate_json_payload ["model", "messages"] body ts with
  | Except.error resp => (resp, false)
  | Except.ok data => chat_handler data engine ts

/-- The numeric value fed to `format_file_size` from `model.get('size', 0)`;
non-numeric sizes make the comparison in `format_file_size` raise. -/
def sizeAsQ : PyValue → Except String ℚ
  | PyValue.int n => Except.ok (n : ℚ)
  | PyValue.float q => Except.ok q
  | PyValue.bool b => Except.ok (if b then 1 else 0)
  | _ => Except.error "unsupported operand type for size comparison"

/-- Enrichment of a single model entry in `/list` (api.py lines 332-342);
a non-dict entry makes `model.get` raise `AttributeError`. -/
def enrich_model (m : PyValue) : Except String PyValue :=
  match m with
  | PyValue.dict kvs => do
      let sz ← sizeAsQ ((pyLookup kvs "size").getD (PyValue.int 0))
      Except.ok (PyValue.dict
        [("name", (pyLookup kvs "name").getD PyValue.none),
         ("model", (pyLookup kvs "model").getD PyValue.none),
         ("size", (pyLookup kvs "size").getD (PyValue.int 0)),
         ("size_formatted", PyValue.str (format_file_size sz)),
         ("digest", (pyLookup kvs "digest").getD PyValue.none),
         ("modified_at", (pyLookup kvs "modified_at").getD PyValue.none),
         ("details", (pyLookup kvs "details").getD (PyValue.dict []))])
  | _ => Except.error "object has no attribute 'get'"

def enrich_models : List PyValue → Except String (List PyValue)
  | [] => Except.ok []
  | m :: ms => do
      let e ← enrich_model m
      let es ← enrich_models ms
      Except.ok (e :: es)

/-- The `for model in models` loop of `/list`; iterating a non-list raises. -/
def enrich_all (models : PyValue) : Except String (List PyValue) :=
  match models with
  | PyValue.list xs => enrich_models xs
  | _ => Except.error "object is not iterable"

/-- The `/list` handler (api.py lines 313-354): every exception inside the
`try` block, including `ollama.ResponseError`, is caught by the single
`except Exception` and mapped to `LIST_MODELS_ERROR`. -/
def list_handler (engine : EngineOutcome) (ts : ℚ) : HttpResp :=
  match engine with
  | EngineOutcome.ok resp =>
      let models := (pyLookup resp "models").getD (PyValue.list [])
      match enrich_all models with
      | Except.ok ms =>
          ⟨200, create_success_response
            (PyValue.dict
              [("models", PyValue.list ms),
               ("total_count", PyValue.int ms.length)])
            "Lista modelli ottenuta con successo" ts⟩
      | Except.error e =>
          ⟨500, create_error_response
            ("Errore nel recuperare la lista dei modelli: " ++ e)
            "LIST_MODELS_ERROR" ts⟩
  | EngineOutcome.responseError e =>
      ⟨500, create_error_response
        ("Errore nel recuperare la lista dei modelli: " ++ e)
        "LIST_MODELS_ERROR" ts⟩
  | EngineOutcome.failure e =>
      ⟨500, create_error_response
        ("Errore nel recuperare la lista dei modelli: " ++ e)
        "LIST_MODELS_ERROR" ts⟩

/-- One parsed row of `ollama ps` output (api.py lines 384-392). -/
def ps_entry (parts : List String) : PyValue :=
  PyValue.dict
    [("name", PyValue.str (parts.getD 0 "")),
     ("id", PyValue.str (parts.getD 1 "")),
     ("size", PyValue.str (parts.getD 2 "")),
     ("processor", PyValue.str (parts.getD 3 "")),
     ("until", PyValue.str
       (if parts.length > 4 then String.intercalate " " (parts.drop 4)
        else ""))]

/-- The output-parsing loop of `/ps` (api.py lines 378-392). -/
def ps_parse (stdout : String) : List PyValue :=
  let output_lines :=
    if pyStrip stdout ≠ "" then pySplit '\n' (pyStrip stdout) else []
  let rows := if output_lines.length > 1 then output_lines.drop 1 else []
  rows.foldr
    (fun line acc =>
      if pyStrip line ≠ "" then
        let parts := pySplitWS line
        if parts.length ≥ 4 then ps_entry parts :: acc else acc
      else acc) []

/-- The `/ps` handler (api.py lines 367-413). -/
def ps_handler (sub : SubprocOutcome) (ts : ℚ) : HttpResp :=
  match sub with
  | SubprocOutcome.ok stdout =>
      let processes := ps_parse stdout
      ⟨200, create_success_response
        (PyValue.dict
          [("raw_output", PyValue.str stdout),
           ("processes", PyValue.list processes),
           ("total_processes", PyValue.int processes.length)])
        "Status processi ottenuto con successo" ts⟩
  | SubprocOutcome.calledProcessError e =>
      ⟨500, create_error_response ("Errore comando ollama ps: " ++ e)
        "OLLAMA_PS_ERROR" ts⟩
  | SubprocOutcome.timeoutExpired =>
      ⟨500, create_error_response "Timeout durante l'esecuzione di ollama ps"
        "OLLAMA_PS_TIMEOUT" ts⟩
  | SubprocOutcome.failure e =>
      ⟨500, create_error_response ("Errore interno durante ollama ps: " ++ e)
        "INTERNAL_ERROR" ts⟩

/-- Body of the `/stop` handler after payload validation (api.py lines
432-471).  The second component records whether `subprocess.run` was
invoked. -/
def stop_handler (data : PyValue) (sub : SubprocOutcome) (ts : ℚ) :
    HttpResp × Bool :=
  match pyDataGet data "model" with
  | Except.error m =>
      (⟨500, create_error_response ("Errore interno durante l'arresto: " ++ m)
        "INTERNAL_ERROR" ts⟩, false)
  | Except.ok model =>
      if !validate_model_name model then
        (⟨400, create_error_response "Nome del modello non valido"
          "INVALID_MODEL_NAME" ts⟩, false)
      else
        match sub with
        | SubprocOutcome.ok stdout =>
            (⟨200, create_success_response
              (PyValue.dict
                [("model", model),
                 ("output", PyValue.str stdout),
                 ("command_success", PyValue.bool true)])
              ("Modello " ++ pyStr model ++ " fermato con successo") ts⟩, true)
        | SubprocOutcome.calledProcessError e =>
            (⟨500, create_error_response
              ("Errore nel fermare il modello " ++ pyStr model ++ ": " ++ e)
              "OLLAMA_STOP_ERROR" ts⟩, true)
        | SubprocOutcome.timeoutExpired =>
            (⟨500, create_error_response
              ("Timeout durante l'arresto del modello " ++ pyStr model)
              "OLLAMA_STOP_TIMEOUT" ts⟩, true)
        | SubprocOutcome.failure e =>
            (⟨500, create_error_response
              ("Errore interno durante l'arresto: " ++ e) "INTERNAL_ERROR" ts⟩,
             true)

/-- `POST /stop`: payload validation then the handler. -/
def stop_endpoint (body : ReqBody) (sub : SubprocOutcome) (ts : ℚ) :
    HttpResp × Bool :=
  match validate_json_payload ["model"] body ts with
  | Except.error resp => (resp, false)
  | Except.ok data => stop_handler data sub ts

/-- Body of the `/pull` handler after payload validation (api.py lines
490-520).  `ollama.pull`'s return value is ignored by the code. -/
def pull_handler (data : PyValue) (engine : EngineOutcome) (ts : ℚ) :
    HttpResp × Bool :=
  match pyDataGet data "model" with
  | Except.error m =>
      (⟨500, create_error_response ("Errore interno durante il download: " ++ m)
        "INTERNAL_ERROR" ts⟩, false)
  | Except.ok model =>
      if !validate_model_name model then
        (⟨400, create_error_response "Nome del modello non valido"
          "INVALID_MODEL_NAME" ts⟩, false)
      else
        match engine with
        | EngineOutcome.ok _ =>
            (⟨200, create_success_response
              (PyValue.dict
                [("model", model),
                 ("download_success", PyValue.bool true)])
              ("Modello " ++ pyStr model ++ " scaricato con successo") ts⟩,
             true)
        | EngineOutcome.responseError e =>
            (⟨500, create_error_response
              ("Errore nel scaricare il modello " ++ pyStr model ++ ": " ++ e)
              "OLLAMA_PULL_ERROR" ts⟩, true)
        | EngineOutcome.failure e =>
            (⟨500, create_error_response
              ("Errore interno durante il download: " ++ e) "INTERNAL_ERROR" ts⟩,
             true)

/-- `POST /pull`: payload validation then the handler. -/
def pull_endpoint (body : ReqBody) (engine : EngineOutcome) (ts : ℚ) :
    HttpResp × Bool :=
  match validate_json_payload ["model"] body ts with
  | Except.error resp => (resp, false)
  | Except.ok data => pull_handler data engine ts

/-- Truthiness of the configured API key (`bool(config.API_KEY)`). -/
def apiKeyTruthy (cfg : Config) : Bool :=
  match cfg.API_KEY with
  | some k => decide (k ≠ "")
  | none => false

/-- The `GET /health` handler (api.py lines 121-161): it returns the
`health_info` dict *directly* through `jsonify`, without wrapping it in
`create_success_response`.  `local_ip` abstracts `get_local_ip()` and
`ollama_ok` abstracts `health_check_ollama(...)`. -/
def health_check (cfg : Config) (local_ip : String) (ollama_ok : Bool) :
    HttpResp :=
  ⟨200, PyValue.dict
    [("status", PyValue.str "ok"),
     ("message", PyValue.str "API Ollama funzionante"),
     ("version", PyValue.str "1.0.0"),
     ("local_ip", PyValue.str local_ip),
     ("server_url", PyValue.str
       ("http://" ++ local_ip ++ ":" ++ toString cfg.PORT)),
     ("ollama_status", PyValue.str (if ollama_ok then "online" else "offline")),
     ("ollama_url", PyValue.str cfg.OLLAMA_BASE_URL),
     ("configuration", PyValue.dict
       [("debug", PyValue.bool cfg.DEBUG),
        ("api_key_required", PyValue.bool (apiKeyTruthy cfg)),
        ("ip_filtering", PyValue.bool (!(get_allowed_ips_list cfg).isEmpty)),
        ("rate_limiting", PyValue.dict
          [("enabled", PyValue.bool cfg.RATE_LIMIT_ENABLED),
           ("requests_per_minute",
             if cfg.RATE_LIMIT_ENABLED then PyValue.int cfg.RATE_LIMIT_PER_MINUTE
             else PyValue.none)]),
        ("cors_origins", PyValue.str cfg.CORS_ORIGINS),
        ("log_level", PyValue.str cfg.LOG_LEVEL)]),
     ("endpoints", PyValue.dict
       [("health", PyValue.str
          ("GET http://" ++ local_ip ++ ":" ++ toString cfg.PORT ++ "/health")),
        ("generate", PyValue.str
          ("POST http://" ++ local_ip ++ ":" ++ toString cfg.PORT ++ "/generate")),
        ("chat", PyValue.str
          ("POST http://" ++ local_ip ++ ":" ++ toString cfg.PORT ++ "/chat")),
        ("list", PyValue.str
          ("GET http://" ++ local_ip ++ ":" ++ toString cfg.PORT ++ "/list")),
        ("ps", PyValue.str
          ("GET http://" ++ local_ip ++ ":" ++ toString cfg.PORT ++ "/ps")),
        ("stop", PyValue.str
          ("POST http://" ++ local_ip ++ ":" ++ toString cfg.PORT ++ "/stop")),
        ("pull", PyValue.str
          ("POST http://" ++ local_ip ++ ":" ++ toString cfg.PORT ++ "/pull"))])]⟩

/-- The Flask 404 error handler (api.py lines 524-530). -/
def not_found_handler (ts : ℚ) : HttpResp :=
  ⟨404, create_error_response "Endpoint non trovato" "ENDPOINT_NOT_FOUND" ts⟩

/-- The Flask 405 error handler (api.py lines 533-539). -/
def method_not_allowed_handler (ts : ℚ) : HttpResp :=
  ⟨405, create_error_response "Metodo HTTP non consentito"
    "METHOD_NOT_ALLOWED" ts⟩

/-- The Flask 500 error handler (api.py lines 542-549). -/
def internal_server_error_handler (ts : ℚ) : HttpResp :=
  ⟨500, create_error_response "Errore interno del server"
    "INTERNAL_SERVER_ERROR" ts⟩

/-- Whether a value is a Python string. -/
def isPyStr : PyValue → Bool
  | PyValue.str _ => true
  | _ => false

/-- Whether a value is a non-empty Python list (`isinstance(v, list) and v`). -/
def isNonEmptyList : PyValue → Bool
  | PyValue.list (_ :: _) => true
  | _ => false

/-- Property of a response body: one of the two standard envelope shapes, a
bare validator object, or the framework's default page for a malformed JSON
body. -/
def envelopeOrValidatorBody (r : HttpResp) : Prop :=
  isSuccessEnvelope r.body = true ∨ isErrorEnvelope r.body = true ∨
    isValidatorBody r.body = true ∨ r.body = werkzeug_bad_request_body

/-- Concrete configuration: rate limiting on with a budget of 1. -/
def cfgC1 : Config :=
  ⟨true, 1, Option.none, Option.none, 5000, false, "http://localhost:11434",
   "*", "INFO"⟩

def reqC1 : Request := ⟨"/generate", "1.2.3.4", Option.none, Option.none⟩

/-- Concrete configuration: allow-list "10.0.0.1, 10.0.0.2", no other checks. -/
def cfgC3 : Config :=
  ⟨false, 60, some "10.0.0.1, 10.0.0.2", Option.none, 5000, false,
   "http://localhost:11434", "*", "INFO"⟩

def reqC3out : Request := ⟨"/generate", "9.9.9.9", Option.none, Option.none⟩

/-- Concrete configuration: API key "secret" configured, nothing else. -/
def cfgC4 : Config :=
  ⟨false, 60, Option.none, some "secret", 5000, false,
   "http://localhost:11434", "*", "INFO"⟩

/-- A request carrying the wrong key in the header and the exact key in the
query parameter. -/
def reqC4 : Request := ⟨"/generate", "1.2.3.4", some "wrong", some "secret"⟩

/-- A request carrying the exact key in the query parameter only. -/
def reqC4w : Request :=
  ⟨"/generate", "1.2.3.4", Option.none, some "secret"⟩

/-- Concrete body for the `/generate`, `/chat`, `/stop`, `/pull` pipelines
with a path-traversal model name. -/
def kvsC5 : List (String × PyValue) :=
  [("model", PyValue.str "a/b"), ("prompt", PyValue.str "hi"),
   ("messages", PyValue.list [PyValue.dict
     [("role", PyValue.str "user"), ("content", PyValue.str "x")]])]

/-- Concrete configuration exercising every field of the health report. -/
def cfgC6 : Config :=
  ⟨true, 60, some "10.0.0.1", some "k", 5000, true, "http://localhost:11434",
   "*", "INFO"⟩

def cfgC7 : Config :=
  ⟨true, 60, Option.none, Option.none, 5000, false, "http://localhost:11434",
   "*", "INFO"⟩

def reqC7 : Request := ⟨"/chat", "1.2.3.4", Option.none, Option.none⟩

/-- Concrete `/chat` body with an invalid model name and an empty messages
list. -/
def kvsC8 : List (String × PyValue) :=
  [("model", PyValue.str "a/b"), ("messages", PyValue.list [])]

/-- Concrete `/chat` body with a valid model name and an empty messages
list. -/
def kvsC8w : List (String × PyValue) :=
  [("model", PyValue.str "llama2"), ("messages", PyValue.list [])]

/-- Concrete body whose model field is present but not a string. -/
def kvsC10 : List (String × PyValue) :=
  [("model", PyValue.int 5), ("prompt", PyValue.str "p"),
   ("messages", PyValue.list [PyValue.str "m"])]

theorem evictOld_eq_dropWhile (current : ℚ) (l : List ℚ) :
    evictOld current l = l.dropWhile (fun t => decide (60 < current - t)) := by
  induction l with
  | nil => rfl
  | cons t ts ih =>
      by_cases h : 60 < current - t
      · simp [evictOld, List.dropWhile_cons, h, ih]
      · simp [evictOld, List.dropWhile_cons, h]

theorem evictOld_head_le (current : ℚ) (l : List ℚ) :
    ∀ h0 ∈ (evictOld current l).head?, current - h0 ≤ 60 := by
  induction l with
  | nil => simp [evictOld]
  | cons t ts ih =>
      by_cases h : 60 < current - t
      · simpa [evictOld, h] using ih
      · intro h0 hh0
        simp [evictOld, h] at hh0
        subst hh0
        linarith

theorem evictOld_sublist (current : ℚ) (l : List ℚ) :
    (evictOld current l).Sublist l := by
  rw [evictOld_eq_dropWhile]
  exact List.dropWhile_sublist _

theorem evictOld_mem_le (current : ℚ) (l : List ℚ)
    (hp : List.Pairwise (· ≤ ·) l) :
    ∀ t ∈ evictOld current l, current - t ≤ 60 := by
  induction l with
  | nil => simp [evictOld]
  | cons a ts ih =>
      rcases List.pairwise_cons.mp hp with ⟨ha, hts⟩
      by_cases h : 60 < current - a
      · simpa [evictOld, h] using ih hts
      · intro t ht
        simp only [evictOld, if_neg h] at ht
        rcases List.mem_cons.mp ht with rfl | ht'
        · linarith
        · have := ha t ht'
          linarith

theorem mem_le_of_pairwise_getLast (l : List ℚ)
    (hp : List.Pairwise (· ≤ ·) l) (current : ℚ)
    (hl : ∀ g ∈ l.getLast?, g ≤ current) :
    ∀ x ∈ l, x ≤ current := by
  induction l with
  | nil => simp
  | cons a ts ih =>
      rcases List.pairwise_cons.mp hp with ⟨ha, hts⟩
      cases ts with
      | nil =>
          intro x hx
          have hx' : x = a := by simpa using hx
          subst hx'
          exact hl x (by simp [List.getLast?])
      | cons b ts' =>
          have hlast' : ∀ g ∈ (b :: ts').getLast?, g ≤ current := by
            intro g hg
            exact hl g (by rwa [List.getLast?_cons_cons])
          have hrec := ih hts hlast'
          intro x hx
          rcases List.mem_cons.mp hx with rfl | hx'
          · exact le_trans (ha b (by simp)) (hrec b (by simp))
          · exact hrec x hx'

theorem access_checks_snd (cfg : Config) (req : Request) (r : List ℚ) :
    (access_checks cfg req r).2 = r := by
  unfold access_checks
  try dsimp only
  repeat' split
  all_goals rfl

theorem middleware_to_access_checks (cfg : Config) (req : Request)
    (record : List ℚ) (current : ℚ) (hpath : req.path ≠ "/health")
    (hrate : cfg.RATE_LIMIT_ENABLED = false ∨
      ((evictOld current record).length : ℤ) < cfg.RATE_LIMIT_PER_MINUTE) :
    security_middleware cfg req record current =
      access_checks cfg req
        (if cfg.RATE_LIMIT_ENABLED then evictOld current record ++ [current]
         else record) := by
  by_cases he : cfg.RATE_LIMIT_ENABLED
  · have hlt : ¬ ((evictOld current record).length : ℤ) ≥
        cfg.RATE_LIMIT_PER_MINUTE := by
      rcases hrate with h | h
      · rw [he] at h
        exact absurd h (by decide)
      · exact not_le.mpr h
    simp [security_middleware, hpath, he, hlt]
  · simp [security_middleware, hpath, he]

/-- C1: with rate limiting enabled, a request to a non-liveness path first
drops from the front of the client's record exactly the maximal run of
timestamps older than 60 seconds; if the remaining count reaches the
per-minute budget the middleware denies with HTTP 429 and code
RATE_LIMIT_EXCEEDED, leaving the record without the current timestamp,
and otherwise it appends the current timestamp and hands over to the
allow-list/API-key checks. -/
theorem C1_rate_limit_step (cfg : Config) (req : Request) (record : List ℚ)
    (current : ℚ) (hpath : req.path ≠ "/health")
    (hen : cfg.RATE_LIMIT_ENABLED = true) :
    evictOld current record =
      record.dropWhile (fun t => decide (60 < current - t)) ∧
    (∀ t ∈ record.takeWhile (fun t => decide (60 < current - t)),
      60 < current - t) ∧
    record.takeWhile (fun t => decide (60 < current - t)) ++
      evictOld current record = record ∧
    (∀ h0 ∈ (evictOld current record).head?, current - h0 ≤ 60) ∧
    (((evictOld current record).length : ℤ) ≥ cfg.RATE_LIMIT_PER_MINUTE →
      security_middleware cfg req record current =
        (Decision.deny 429 "RATE_LIMIT_EXCEEDED", evictOld current record)) ∧
    (((evictOld current record).length : ℤ) < cfg.RATE_LIMIT_PER_MINUTE →
      security_middleware cfg req record current =
        access_checks cfg req (evictOld current record ++ [current])) := by
  refine ⟨evictOld_eq_dropWhile current record, ?_, ?_, ?_, ?_, ?_⟩
  · intro t ht
    have h := List.mem_takeWhile_imp ht
    exact of_decide_eq_true h
  · rw [evictOld_eq_dropWhile]
    exact List.takeWhile_append_dropWhile _ _
  · exact evictOld_head_le current record
  · intro hge
    simp [security_middleware, hpath, hen, hge]
  · intro hlt
    have h := middleware_to_access_checks cfg req record current hpath
      (Or.inr hlt)
    rwa [if_pos hen] at h

/-- Witness for C1 at a concrete input: budget 1, one stale timestamp
evicted, one fresh timestamp remaining, so the request is denied and the
current time is not appended. -/
theorem C1_witness :
    security_middleware cfgC1 reqC1 [10, 70] 100 =
      (Decision.deny 429 "RATE_LIMIT_EXCEEDED", [70]) := by
  have h := (C1_rate_limit_step cfgC1 reqC1 [10, 70] 100
    (by simp [reqC1]) rfl).2.2.2.2.1
  have he : evictOld 100 [10, 70] = [70] := by norm_num [evictOld]
  rw [he] at h
  exact h (by norm_num [cfgC1])

/-- C2: a request whose path is the liveness path /health is allowed
unconditionally, for every configuration, client address, credential
content, rate record and time; no check runs and the record is untouched. -/
theorem C2_health_path_exempt (cfg : Config) (addr : String)
    (hk qk : Option String) (record : List ℚ) (current : ℚ) :
    security_middleware cfg ⟨"/health", addr, hk, qk⟩ record current =
      (Decision.allow, record) := by
  simp [security_middleware]

theorem access_checks_fst_cases (cfg : Config) (req : Request) (r : List ℚ) :
    ((get_allowed_ips_list cfg ≠ [] ∧
        req.remote_addr ∉ get_allowed_ips_list cfg) →
      (access_checks cfg req r).1 = Decision.deny 403 "UNAUTHORIZED_IP") ∧
    ((get_allowed_ips_list cfg = [] ∨
        req.remote_addr ∈ get_allowed_ips_list cfg) →
      (access_checks cfg req r).1 = Decision.allow ∨
      (access_checks cfg req r).1 = Decision.deny 401 "INVALID_API_KEY") := by
  constructor
  · rintro ⟨hne, hnm⟩
    simp [access_checks, hne, hnm]
  · intro hpass
    cases hk : cfg.API_KEY with
    | none =>
        left
        rcases hpass with h | h <;> simp [access_checks, h, hk]
    | some key =>
        by_cases hke : key = ""
        · left
          rcases hpass with h | h <;> simp [access_checks, h, hk, hke]
        · by_cases hpk : provided_key req = some key
          · left
            rcases hpass with h | h <;> simp [access_checks, h, hk, hke, hpk]
          · right
            rcases hpass with h | h <;> simp [access_checks, h, hk, hke, hpk]

/-- C3: with the rate limiter admitting the request and a non-empty
configured allow-list, a source address absent from the list is denied with
HTTP 403 and code UNAUTHORIZED_IP, a listed address passes this check, and
an unconfigured or empty list skips the check entirely (the decision is the
allow/API-key outcome, never an IP denial). -/
theorem C3_ip_allowlist (cfg : Config) (req : Request) (record : List ℚ)
    (current : ℚ) (hpath : req.path ≠ "/health")
    (hrate : cfg.RATE_LIMIT_ENABLED = false ∨
      ((evictOld current record).length : ℤ) < cfg.RATE_LIMIT_PER_MINUTE) :
    (get_allowed_ips_list cfg ≠ [] →
      req.remote_addr ∉ get_allowed_ips_list cfg →
      (security_middleware cfg req record current).1 =
        Decision.deny 403 "UNAUTHORIZED_IP") ∧
    (get_allowed_ips_list cfg ≠ [] →
      req.remote_addr ∈ get_allowed_ips_list cfg →
      (security_middleware cfg req record current).1 = Decision.allow ∨
      (security_middleware cfg req record current).1 =
        Decision.deny 401 "INVALID_API_KEY") ∧
    (get_allowed_ips_list cfg = [] →
      (security_middleware cfg req record current).1 = Decision.allow ∨
      (security_middleware cfg req record current).1 =
        Decision.deny 401 "INVALID_API_KEY") := by
  rw [middleware_to_access_checks cfg req record current hpath hrate]
  refine ⟨?_, ?_, ?_⟩
  · intro hne hnm
    exact (access_checks_fst_cases cfg req _).1 ⟨hne, hnm⟩
  · intro _ hm
    exact (access_checks_fst_cases cfg req _).2 (Or.inr hm)
  · intro he
    exact (access_checks_fst_cases cfg req _).2 (Or.inl he)

/-- Witness for C3 at a concrete input: allow-list "10.0.0.1, 10.0.0.2",
request from the unlisted address 9.9.9.9, rate limiting disabled. -/
theorem C3_witness :
    (security_middleware cfgC3 reqC3out [] 0).1 =
      Decision.deny 403 "UNAUTHORIZED_IP" :=
  (C3_ip_allowlist cfgC3 reqC3out [] 0 (by simp [reqC3out])
    (Or.inl rfl)).1 (by decide) (by decide)

/-- Counterexample to C4 as stated: with API key "secret" configured and no
other policy active, a request that supplies the exact key in the api_key
query parameter but a different non-empty value in the X-API-Key header is
denied with 401 INVALID_API_KEY, although the claim says any request
supplying the exact key in the header or the query parameter is allowed. -/
theorem C4_counterexample :
    cfgC4.API_KEY = some "secret" ∧
    reqC4.query_api_key = some "secret" ∧
    reqC4.path ≠ "/health" ∧
    (security_middleware cfgC4 reqC4 [] 0).1 =
      Decision.deny 401 "INVALID_API_KEY" := by
  refine ⟨rfl, rfl, by decide, ?_⟩
  rfl

/-- C4 (amended): when an API key is configured (non-empty), the request is
allowed exactly when the candidate key — the X-API-Key header if present
and non-empty, otherwise the api_key query parameter — equals the
configured key, and otherwise it is denied with HTTP 401 and code
INVALID_API_KEY; when no key is configured (absent or empty) the check is
skipped.  The rate limiter must admit the request and the allow-list must
pass for the key check to be reached. -/
theorem C4_api_key_amended (cfg : Config) (req : Request) (record : List ℚ)
    (current : ℚ) (hpath : req.path ≠ "/health")
    (hrate : cfg.RATE_LIMIT_ENABLED = false ∨
      ((evictOld current record).length : ℤ) < cfg.RATE_LIMIT_PER_MINUTE)
    (hip : get_allowed_ips_list cfg = [] ∨
      req.remote_addr ∈ get_allowed_ips_list cfg) :
    (∀ k, cfg.API_KEY = some k → k ≠ "" →
      (((security_middleware cfg req record current).1 = Decision.allow) ↔
        provided_key req = some k) ∧
      (provided_key req ≠ some k →
        (security_middleware cfg req record current).1 =
          Decision.deny 401 "INVALID_API_KEY")) ∧
    ((cfg.API_KEY = Option.none ∨ cfg.API_KEY = some "") →
      (security_middleware cfg req record current).1 = Decision.allow) := by
  rw [middleware_to_access_checks cfg req record current hpath hrate]
  constructor
  · intro k hk hke
    constructor
    · constructor
      · intro hallow
        by_contra hpk
        rcases hip with h | h <;>
          simp [access_checks, h, hk, hke, hpk] at hallow
      · intro hpk
        rcases hip with h | h <;> simp [access_checks, h, hk, hke, hpk]
    · intro hpk
      rcases hip with h | h <;> simp [access_checks, h, hk, hke, hpk]
  · intro hnone
    rcases hnone with hk | hk <;>
      rcases hip with h | h <;> simp [access_checks, h, hk]

/-- Witness for the amended C4: the exact key supplied via the query
parameter with no header present is allowed. -/
theorem C4_witness :
    (security_middleware cfgC4 reqC4w [] 0).1 = Decision.allow :=
  ((C4_api_key_amended cfgC4 reqC4w [] 0 (by decide) (Or.inl rfl)
    (Or.inl rfl)).1 "secret" rfl (by decide)).1.mpr rfl

/-- C7: provided the stored timestamps are monotonically non-decreasing and
the current time is at least the last stored timestamp, one admission step
leaves the record monotonically non-decreasing, and the eviction performed
before the allow/deny decision removes every entry older than 60 seconds
(all surviving entries are within the window). -/
theorem C7_record_invariant (cfg : Config) (req : Request) (record : List ℚ)
    (current : ℚ) (hmono : List.Pairwise (· ≤ ·) record)
    (hlast : ∀ g ∈ record.getLast?, g ≤ current) :
    List.Pairwise (· ≤ ·) (security_middleware cfg req record current).2 ∧
    (∀ t ∈ evictOld current record, current - t ≤ 60) := by
  have hall : ∀ x ∈ record, x ≤ current :=
    mem_le_of_pairwise_getLast record hmono current hlast
  have hevict : List.Pairwise (· ≤ ·) (evictOld current record) :=
    List.Pairwise.sublist (evictOld_sublist current record) hmono
  have happend : List.Pairwise (· ≤ ·) (evictOld current record ++ [current]) := by
    rw [List.pairwise_append]
    refine ⟨hevict, List.pairwise_singleton _ _, ?_⟩
    intro a ha b hb
    have hb' : b = current := by simpa using hb
    rw [hb']
    exact hall a (List.Sublist.subset (evictOld_sublist current record) ha)
  refine ⟨?_, evictOld_mem_le current record hmono⟩
  by_cases hp : req.path = "/health"
  · simpa [security_middleware, hp] using hmono
  · by_cases he : cfg.RATE_LIMIT_ENABLED
    · by_cases hge : ((evictOld current record).length : ℤ) ≥
          cfg.RATE_LIMIT_PER_MINUTE
      · simpa [security_middleware, hp, he, hge] using hevict
      · have hred :
            security_middleware cfg req record current =
              access_checks cfg req (evictOld current record ++ [current]) := by
          simp [security_middleware, hp, he, hge]
        rw [hred, access_checks_snd]
        exact happend
    · have hred :
          security_middleware cfg req record current =
            access_checks cfg req record := by
        simp [security_middleware, hp, he]
      rw [hred, access_checks_snd]
      exact hmono

/-- Witness for C7 at a concrete input: a sorted record under an admitting
configuration stays sorted after the step. -/
theorem C7_witness :
    List.Pairwise (fun a b : ℚ => a ≤ b)
      (security_middleware cfgC7 reqC7 [0, 30] 70).2 :=
  (C7_record_invariant cfgC7 reqC7 [0, 30] 70 (by norm_num)
    (by
      intro g hg
      have hl : ([0, 30] : List ℚ).getLast? = some 30 := rfl
      rw [hl] at hg
      simp at hg
      subst hg
      norm_num)).1

theorem pyLookup_any (kvs : List (String × PyValue)) (k : String)
    (h : (pyLookup kvs k).isSome = true) :
    kvs.any (fun p => p.1 == k) = true := by
  induction kvs with
  | nil => simp [pyLookup] at h
  | cons p rest ih =>
      rcases p with ⟨k', v⟩
      by_cases hk : k' = k
      · simp [hk]
      · simp only [pyLookup, if_neg hk] at h
        simp [ih h]

theorem pyLookup_ne_nil (kvs : List (String × PyValue)) (k : String)
    (h : (pyLookup kvs k).isSome = true) : kvs ≠ [] := by
  intro he
  subst he
  simp [pyLookup] at h

theorem pyMissing_dict_ok (required : List String)
    (kvs : List (String × PyValue))
    (h : ∀ f ∈ required, (pyLookup kvs f).isSome = true) :
    pyMissing required (PyValue.dict kvs) = Except.ok [] := by
  induction required with
  | nil => rfl
  | cons f rest ih =>
      have hf : kvs.any (fun p => p.1 == f) = true :=
        pyLookup_any kvs f (h f (by simp))
      have hr : pyMissing rest (PyValue.dict kvs) = Except.ok [] :=
        ih (fun g hg => h g (by simp [hg]))
      simp [pyMissing, pyContains, hf, hr, Bind.bind, Except.bind]

theorem validate_json_payload_ok (required : List String)
    (kvs : List (String × PyValue)) (ts : ℚ)
    (h : ∀ f ∈ required, (pyLookup kvs f).isSome = true)
    (hne : kvs ≠ []) :
    validate_json_payload required (ReqBody.json (PyValue.dict kvs)) ts =
      Except.ok (PyValue.dict kvs) := by
  have ht : pyTruthy (PyValue.dict kvs) = true := by
    simp [pyTruthy, hne]
  simp [validate_json_payload, ht, pyMissing_dict_ok required kvs h]

theorem validate_model_name_dangerous (m : String)
    (hd : dangerous_chars.any (fun d => containsSub d m) = true) :
    validate_model_name (PyValue.str m) = false := by
  by_cases ht : pyTruthy (PyValue.str m)
  · simp [validate_model_name, ht, hd]
  · simp [validate_model_name, ht]

/-- C5: a model identifier containing any of the substrings /, \, .., <, >,
|, &, ; that is supplied in the model field of an otherwise complete JSON
body makes each of the four model-accepting endpoints return HTTP 400 with
code INVALID_MODEL_NAME, without reaching the Ollama library call or the
subprocess (the Boolean component is false). -/
theorem C5_dangerous_model_rejected (kvs : List (String × PyValue))
    (m : String) (engine : EngineOutcome) (sub : SubprocOutcome) (ts : ℚ)
    (hm : pyLookup kvs "model" = some (PyValue.str m))
    (hpr : (pyLookup kvs "prompt").isSome = true)
    (hms : (pyLookup kvs "messages").isSome = true)
    (hdanger : dangerous_chars.any (fun d => containsSub d m) = true) :
    generate_endpoint (ReqBody.json (PyValue.dict kvs)) engine ts =
      (⟨400, create_error_response "Nome del modello non valido"
        "INVALID_MODEL_NAME" ts⟩, false) ∧
    chat_endpoint (ReqBody.json (PyValue.dict kvs)) engine ts =
      (⟨400, create_error_response "Nome del modello non valido"
        "INVALID_MODEL_NAME" ts⟩, false) ∧
    stop_endpoint (ReqBody.json (PyValue.dict kvs)) sub ts =
      (⟨400, create_error_response "Nome del modello non valido"
        "INVALID_MODEL_NAME" ts⟩, false) ∧
    pull_endpoint (ReqBody.json (PyValue.dict kvs)) engine ts =
      (⟨400, create_error_response "Nome del modello non valido"
        "INVALID_MODEL_NAME" ts⟩, false) := by
  have hmm : (pyLookup kvs "model").isSome = true := by simp [hm]
  have hne : kvs ≠ [] := pyLookup_ne_nil kvs "model" hmm
  have hv : validate_model_name (PyValue.str m) = false :=
    validate_model_name_dangerous m hdanger
  have hreq1 : ∀ f ∈ ["model", "prompt"], (pyLookup kvs f).isSome = true := by
    intro f hf
    simp at hf
    rcases hf with rfl | rfl
    · exact hmm
    · exact hpr
  have hreq2 : ∀ f ∈ ["model", "messages"], (pyLookup kvs f).isSome = true := by
    intro f hf
    simp at hf
    rcases hf with rfl | rfl
    · exact hmm
    · exact hms
  have hreq3 : ∀ f ∈ ["model"], (pyLookup kvs f).isSome = true := by
    intro f hf
    simp at hf
    subst hf
    exact hmm
  refine ⟨?_, ?_, ?_, ?_⟩
  · rw [generate_endpoint,
      validate_json_payload_ok ["model", "prompt"] kvs ts hreq1 hne]
    simp [generate_handler, pyDataGet, hm, hv]
  · rw [chat_endpoint,
      validate_json_payload_ok ["model", "messages"] kvs ts hreq2 hne]
    simp [chat_handler, pyDataGet, hm, hv]
  · rw [stop_endpoint, validate_json_payload_ok ["model"] kvs ts hreq3 hne]
    simp [stop_handler, pyDataGet, hm, hv]
  · rw [pull_endpoint, validate_json_payload_ok ["model"] kvs ts hreq3 hne]
    simp [pull_handler, pyDataGet, hm, hv]

/-- Witness for C5 at the concrete body with model "a/b". -/
theorem C5_witness :
    stop_endpoint (ReqBody.json (PyValue.dict kvsC5)) (SubprocOutcome.ok "") 0 =
      (⟨400, create_error_response "Nome del modello non valido"
        "INVALID_MODEL_NAME" 0⟩, false) :=
  (C5_dangerous_model_rejected kvsC5 "a/b" (EngineOutcome.ok [])
    (SubprocOutcome.ok "") 0 rfl rfl rfl (by decide)).2.2.1

/-- Counterexample to C8 as stated: a /chat body containing both required
fields whose messages value is the empty list but whose model name is
invalid ("a/b") is answered with INVALID_MODEL_NAME, not with
INVALID_MESSAGES_FORMAT, because the handler validates the model name
first. -/
theorem C8_counterexample :
    pyLookup kvsC8 "model" = some (PyValue.str "a/b") ∧
    pyLookup kvsC8 "messages" = some (PyValue.list []) ∧
    chat_endpoint (ReqBody.json (PyValue.dict kvsC8)) (EngineOutcome.ok []) 0 =
      (⟨400, create_error_response "Nome del modello non valido"
        "INVALID_MODEL_NAME" 0⟩, false) ∧
    bodyErrorCode
      (chat_endpoint (ReqBody.json (PyValue.dict kvsC8))
        (EngineOutcome.ok []) 0).1.body = some "INVALID_MODEL_NAME" ∧
    some "INVALID_MODEL_NAME" ≠ some "INVALID_MESSAGES_FORMAT" := by
  refine ⟨rfl, rfl, rfl, by decide, by decide⟩

/-- C8 (amended): a POST /chat body containing the required fields, whose
model name passes validation but whose messages value is not a non-empty
list, is answered with HTTP 400 and code INVALID_MESSAGES_FORMAT, and the
chat engine call is not reached. -/
theorem C8_empty_messages (kvs : List (String × PyValue)) (mv msgs : PyValue)
    (engine : EngineOutcome) (ts : ℚ)
    (hm : pyLookup kvs "model" = some mv)
    (hvalid : validate_model_name mv = true)
    (hmsgs : pyLookup kvs "messages" = some msgs)
    (hbad : isNonEmptyList msgs = false) :
    chat_endpoint (ReqBody.json (PyValue.dict kvs)) engine ts =
      (⟨400, create_error_response "I messaggi devono essere una lista non vuota"
        "INVALID_MESSAGES_FORMAT" ts⟩, false) := by
  have hmm : (pyLookup kvs "model").isSome = true := by simp [hm]
  have hne : kvs ≠ [] := pyLookup_ne_nil kvs "model" hmm
  have hreq : ∀ f ∈ ["model", "messages"], (pyLookup kvs f).isSome = true := by
    intro f hf
    simp at hf
    rcases hf with rfl | rfl
    · exact hmm
    · simp [hmsgs]
  rw [chat_endpoint,
    validate_json_payload_ok ["model", "messages"] kvs ts hreq hne]
  cases msgs with
  | list xs =>
      cases xs with
      | nil => simp [chat_handler, pyDataGet, hm, hmsgs, hvalid]
      | cons x xs' => simp [isNonEmptyList] at hbad
  | none => simp [chat_handler, pyDataGet, hm, hmsgs, hvalid]
  | bool b => simp [chat_handler, pyDataGet, hm, hmsgs, hvalid]
  | int n => simp [chat_handler, pyDataGet, hm, hmsgs, hvalid]
  | float q => simp [chat_handler, pyDataGet, hm, hmsgs, hvalid]
  | str s => simp [chat_handler, pyDataGet, hm, hmsgs, hvalid]
  | dict d => simp [chat_handler, pyDataGet, hm, hmsgs, hvalid]

/-- Witness for the amended C8: valid model name "llama2" with empty
messages list yields the INVALID_MESSAGES_FORMAT envelope. -/
theorem C8_witness :
    chat_endpoint (ReqBody.json (PyValue.dict kvsC8w)) (EngineOutcome.ok []) 0 =
      (⟨400, create_error_response "I messaggi devono essere una lista non vuota"
        "INVALID_MESSAGES_FORMAT" 0⟩, false) :=
  C8_empty_messages kvsC8w (PyValue.str "llama2") (PyValue.list [])
    (EngineOutcome.ok []) 0 rfl (by decide) rfl rfl

theorem validate_model_name_not_str (v : PyValue) (hv : isPyStr v = false) :
    validate_model_name v = false := by
  by_cases ht : pyTruthy v
  · cases v with
    | str s => simp [isPyStr] at hv
    | none => simp [validate_model_name, ht]
    | bool b => simp [validate_model_name, ht]
    | int n => simp [validate_model_name, ht]
    | float q => simp [validate_model_name, ht]
    | list xs => simp [validate_model_name, ht]
    | dict kvs => simp [validate_model_name, ht]
  · simp [validate_model_name, ht]

theorem pyStrip_all_space (s : String) (h : s.toList.all pyIsSpace = true) :
    pyStrip s = "" := by
  have h1 : s.toList.dropWhile pyIsSpace = [] := by
    rw [List.dropWhile_eq_nil_iff]
    intro x hx
    exact List.all_eq_true.mp h x hx
  unfold pyStrip pyStripList
  rw [h1]
  decide

theorem validate_model_name_blank (s : String)
    (h : s.toList.all pyIsSpace = true) :
    validate_model_name (PyValue.str s) = false := by
  by_cases ht : pyTruthy (PyValue.str s)
  · have hs := pyStrip_all_space s h
    simp [validate_model_name, ht, hs]
  · simp [validate_model_name, ht]

/-- C10: the model-name validator is total on the JSON value domain and
returns false for every non-string value and for every blank (empty or
whitespace-only) string; consequently each of the four model-accepting
endpoints answers such a model field with HTTP 400 and code
INVALID_MODEL_NAME, without reaching the engine call or subprocess. -/
theorem C10_model_validator_total :
    (∀ v : PyValue, isPyStr v = false → validate_model_name v = false) ∧
    (∀ s : String, s.toList.all pyIsSpace = true →
      validate_model_name (PyValue.str s) = false) ∧
    (∀ (kvs : List (String × PyValue)) (v : PyValue) (engine : EngineOutcome)
        (sub : SubprocOutcome) (ts : ℚ),
      pyLookup kvs "model" = some v →
      (pyLookup kvs "prompt").isSome = true →
      (pyLookup kvs "messages").isSome = true →
      (isPyStr v = false ∨
        (∃ s, v = PyValue.str s ∧ s.toList.all pyIsSpace = true)) →
      generate_endpoint (ReqBody.json (PyValue.dict kvs)) engine ts =
        (⟨400, create_error_response "Nome del modello non valido"
          "INVALID_MODEL_NAME" ts⟩, false) ∧
      chat_endpoint (ReqBody.json (PyValue.dict kvs)) engine ts =
        (⟨400, create_error_response "Nome del modello non valido"
          "INVALID_MODEL_NAME" ts⟩, false) ∧
      stop_endpoint (ReqBody.json (PyValue.dict kvs)) sub ts =
        (⟨400, create_error_response "Nome del modello non valido"
          "INVALID_MODEL_NAME" ts⟩, false) ∧
      pull_endpoint (ReqBody.json (PyValue.dict kvs)) engine ts =
        (⟨400, create_error_response "Nome del modello non valido"
          "INVALID_MODEL_NAME" ts⟩, false)) := by
  refine ⟨validate_model_name_not_str, validate_model_name_blank, ?_⟩
  intro kvs v engine sub ts hm hpr hms hbadv
  have hv : validate_model_name v = false := by
    rcases hbadv with h | ⟨s, rfl, hs⟩
    · exact validate_model_name_not_str v h
    · exact validate_model_name_blank s hs
  have hmm : (pyLookup kvs "model").isSome = true := by simp [hm]
  have hne : kvs ≠ [] := pyLookup_ne_nil kvs "model" hmm
  have hreq1 : ∀ f ∈ ["model", "prompt"], (pyLookup kvs f).isSome = true := by
    intro f hf
    simp at hf
    rcases hf with rfl | rfl
    · exact hmm
    · exact hpr
  have hreq2 : ∀ f ∈ ["model", "messages"], (pyLookup kvs f).isSome = true := by
    intro f hf
    simp at hf
    rcases hf with rfl | rfl
    · exact hmm
    · exact hms
  have hreq3 : ∀ f ∈ ["model"], (pyLookup kvs f).isSome = true := by
    intro f hf
    simp at hf
    subst hf
    exact hmm
  refine ⟨?_, ?_, ?_, ?_⟩
  · rw [generate_endpoint,
      validate_json_payload_ok ["model", "prompt"] kvs ts hreq1 hne]
    simp [generate_handler, pyDataGet, hm, hv]
  · rw [chat_endpoint,
      validate_json_payload_ok ["model", "messages"] kvs ts hreq2 hne]
    simp [chat_handler, pyDataGet, hm, hv]
  · rw [stop_endpoint, validate_json_payload_ok ["model"] kvs ts hreq3 hne]
    simp [stop_handler, pyDataGet, hm, hv]
  · rw [pull_endpoint, validate_json_payload_ok ["model"] kvs ts hreq3 hne]
    simp [pull_handler, pyDataGet, hm, hv]

/-- Witness for C10: an integer model value and a whitespace-only model
name are both rejected, and a body with a non-string model field gets the
INVALID_MODEL_NAME envelope from /stop. -/
theorem C10_witness :
    validate_model_name (PyValue.int 5) = false ∧
    validate_model_name (PyValue.str " ") = false ∧
    validate_model_name (PyValue.str "\x1c") = false ∧
    validate_model_name (PyValue.str "\xa0") = false ∧
    stop_endpoint (ReqBody.json (PyValue.dict kvsC10)) (SubprocOutcome.ok "") 0 =
      (⟨400, create_error_response "Nome del modello non valido"
        "INVALID_MODEL_NAME" 0⟩, false) :=
  ⟨C10_model_validator_total.1 (PyValue.int 5) rfl,
   C10_model_validator_total.2.1 " " (by decide),
   C10_model_validator_total.2.1 "\x1c" (by decide),
   C10_model_validator_total.2.1 "\xa0" (by decide),
   (C10_model_validator_total.2.2 kvsC10 (PyValue.int 5) (EngineOutcome.ok [])
     (SubprocOutcome.ok "") 0 rfl rfl rfl (Or.inl rfl)).2.2.1⟩

theorem isErrorEnvelope_create (e c : String) (ts : ℚ) :
    isErrorEnvelope (create_error_response e c ts) = true := rfl

theorem isSuccessEnvelope_create (d : PyValue) (m : String) (ts : ℚ) :
    isSuccessEnvelope (create_success_response d m ts) = true := rfl

theorem validate_json_payload_shapes (required : List String) (body : ReqBody)
    (ts : ℚ) :
    (∃ data, validate_json_payload required body ts = Except.ok data) ∨
    (∃ resp, validate_json_payload required body ts = Except.error resp ∧
      (isErrorEnvelope resp.body = true ∨ isValidatorBody resp.body = true ∨
        resp.body = werkzeug_bad_request_body)) := by
  cases body with
  | notJson => exact Or.inr ⟨_, rfl, Or.inr (Or.inl rfl)⟩
  | badJson => exact Or.inr ⟨_, rfl, Or.inr (Or.inr rfl)⟩
  | json data =>
      by_cases ht : pyTruthy data
      · cases hmiss : pyMissing required data with
        | error e =>
            exact Or.inr ⟨⟨500, create_error_response "Errore interno del server"
              "INTERNAL_SERVER_ERROR" ts⟩,
              by simp [validate_json_payload, ht, hmiss], Or.inl rfl⟩
        | ok ms =>
            cases ms with
            | nil =>
                exact Or.inl ⟨data, by simp [validate_json_payload, ht, hmiss]⟩
            | cons f rest =>
                exact Or.inr ⟨⟨400, PyValue.dict [("error", PyValue.str
                  ("Campi mancanti: " ++ String.intercalate ", " (f :: rest)))]⟩,
                  by simp [validate_json_payload, ht, hmiss], Or.inr (Or.inl rfl)⟩
      · exact Or.inr ⟨⟨400, PyValue.dict
          [("error", PyValue.str "Payload JSON mancante o non valido")]⟩,
          by simp [validate_json_payload, ht], Or.inr (Or.inl rfl)⟩

theorem generate_handler_shape (data : PyValue) (engine : EngineOutcome)
    (ts : ℚ) :
    isSuccessEnvelope (generate_handler data engine ts).1.body = true ∨
    isErrorEnvelope (generate_handler data engine ts).1.body = true := by
  unfold generate_handler
  try dsimp only
  repeat' split
  all_goals simp [isSuccessEnvelope_create, isErrorEnvelope_create]

theorem chat_handler_shape (data : PyValue) (engine : EngineOutcome)
    (ts : ℚ) :
    isSuccessEnvelope (chat_handler data engine ts).1.body = true ∨
    isErrorEnvelope (chat_handler data engine ts).1.body = true := by
  unfold chat_handler
  try dsimp only
  repeat' split
  all_goals simp [isSuccessEnvelope_create, isErrorEnvelope_create]

theorem list_handler_shape (engine : EngineOutcome) (ts : ℚ) :
    isSuccessEnvelope (list_handler engine ts).body = true ∨
    isErrorEnvelope (list_handler engine ts).body = true := by
  unfold list_handler
  try dsimp only
  repeat' split
  all_goals simp [isSuccessEnvelope_create, isErrorEnvelope_create]

theorem ps_handler_shape (sub : SubprocOutcome) (ts : ℚ) :
    isSuccessEnvelope (ps_handler sub ts).body = true ∨
    isErrorEnvelope (ps_handler sub ts).body = true := by
  unfold ps_handler
  try dsimp only
  repeat' split
  all_goals simp [isSuccessEnvelope_create, isErrorEnvelope_create]

theorem stop_handler_shape (data : PyValue) (sub : SubprocOutcome) (ts : ℚ) :
    isSuccessEnvelope (stop_handler data sub ts).1.body = true ∨
    isErrorEnvelope (stop_handler data sub ts).1.body = true := by
  unfold stop_handler
  try dsimp only
  repeat' split
  all_goals simp [isSuccessEnvelope_create, isErrorEnvelope_create]

theorem pull_handler_shape (data : PyValue) (engine : EngineOutcome) (ts : ℚ) :
    isSuccessEnvelope (pull_handler data engine ts).1.body = true ∨
    isErrorEnvelope (pull_handler data engine ts).1.body = true := by
  unfold pull_handler
  try dsimp only
  repeat' split
  all_goals simp [isSuccessEnvelope_create, isErrorEnvelope_create]

/-- Counterexample to C6 as stated: the GET /health response is not a
Success envelope (its status field is "ok", there are no data/timestamp
fields), and the 400 body for a missing required field is a bare
{"error": ...} object rather than an Error envelope. -/
theorem C6_counterexample :
    (health_check cfgC6 "192.168.1.50" false).status = 200 ∧
    isSuccessEnvelope (health_check cfgC6 "192.168.1.50" false).body = false ∧
    isErrorEnvelope (health_check cfgC6 "192.168.1.50" false).body = false ∧
    validate_json_payload ["model", "prompt"]
      (ReqBody.json (PyValue.dict [("model", PyValue.str "llama2")])) 0 =
      Except.error ⟨400, PyValue.dict
        [("error", PyValue.str "Campi mancanti: prompt")]⟩ ∧
    isErrorEnvelope
      (PyValue.dict [("error", PyValue.str "Campi mancanti: prompt")]) =
      false ∧
    validate_json_payload ["model", "prompt"] ReqBody.badJson 0 =
      Except.error ⟨400, werkzeug_bad_request_body⟩ ∧
    isSuccessEnvelope werkzeug_bad_request_body = false ∧
    isErrorEnvelope werkzeug_bad_request_body = false ∧
    isValidatorBody werkzeug_bad_request_body = false := by
  exact ⟨rfl, rfl, rfl, rfl, rfl, rfl, rfl, rfl, rfl⟩

/-- C6 (amended): every response of the modelled handlers is exactly one of
the two standard envelope shapes, except for three families the code
produces outside the envelope helpers: the GET /health response (a bespoke
object with top-level status "ok", no data/timestamp), the 400 bodies of
the JSON-payload validator (bare one-field {"error": ...} objects), and
werkzeug's default 400 page for a malformed JSON body, whose BadRequest no
registered error handler catches.  The Flask 404/405/500 handlers produce
Error envelopes. -/
theorem C6_envelope_shapes :
    (∀ (body : ReqBody) (engine : EngineOutcome) (ts : ℚ),
      envelopeOrValidatorBody (generate_endpoint body engine ts).1) ∧
    (∀ (body : ReqBody) (engine : EngineOutcome) (ts : ℚ),
      envelopeOrValidatorBody (chat_endpoint body engine ts).1) ∧
    (∀ (engine : EngineOutcome) (ts : ℚ),
      isSuccessEnvelope (list_handler engine ts).body = true ∨
      isErrorEnvelope (list_handler engine ts).body = true) ∧
    (∀ (sub : SubprocOutcome) (ts : ℚ),
      isSuccessEnvelope (ps_handler sub ts).body = true ∨
      isErrorEnvelope (ps_handler sub ts).body = true) ∧
    (∀ (body : ReqBody) (sub : SubprocOutcome) (ts : ℚ),
      envelopeOrValidatorBody (stop_endpoint body sub ts).1) ∧
    (∀ (body : ReqBody) (engine : EngineOutcome) (ts : ℚ),
      envelopeOrValidatorBody (pull_endpoint body engine ts).1) ∧
    (∀ (cfg : Config) (ip : String) (ok : Bool),
      (health_check cfg ip ok).status = 200 ∧
      isSuccessEnvelope (health_check cfg ip ok).body = false ∧
      isErrorEnvelope (health_check cfg ip ok).body = false) ∧
    (∀ ts : ℚ, isErrorEnvelope (not_found_handler ts).body = true) ∧
    (∀ ts : ℚ, isErrorEnvelope (method_not_allowed_handler ts).body = true) ∧
    (∀ ts : ℚ, isErrorEnvelope (internal_server_error_handler ts).body = true) := by
  refine ⟨?_, ?_, ?_, ?_, ?_, ?_, ?_, ?_, ?_, ?_⟩
  · intro body engine ts
    unfold generate_endpoint
    rcases validate_json_payload_shapes ["model", "prompt"] body ts with
      ⟨data, hd⟩ | ⟨resp, hr, hshape⟩
    · rw [hd]
      rcases generate_handler_shape data engine ts with h | h
      · exact Or.inl h
      · exact Or.inr (Or.inl h)
    · rw [hr]
      rcases hshape with h | h | h
      · exact Or.inr (Or.inl h)
      · exact Or.inr (Or.inr (Or.inl h))
      · exact Or.inr (Or.inr (Or.inr h))
  · intro body engine ts
    unfold chat_endpoint
    rcases validate_json_payload_shapes ["model", "messages"] body ts with
      ⟨data, hd⟩ | ⟨resp, hr, hshape⟩
    · rw [hd]
      rcases chat_handler_shape data engine ts with h | h
      · exact Or.inl h
      · exact Or.inr (Or.inl h)
    · rw [hr]
      rcases hshape with h | h | h
      · exact Or.inr (Or.inl h)
      · exact Or.inr (Or.inr (Or.inl h))
      · exact Or.inr (Or.inr (Or.inr h))
  · exact list_handler_shape
  · exact ps_handler_shape
  · intro body sub ts
    unfold stop_endpoint
    rcases validate_json_payload_shapes ["model"] body ts with
      ⟨data, hd⟩ | ⟨resp, hr, hshape⟩
    · rw [hd]
      rcases stop_handler_shape data sub ts with h | h
      · exact Or.inl h
      · exact Or.inr (Or.inl h)
    · rw [hr]
      rcases hshape with h | h | h
      · exact Or.inr (Or.inl h)
      · exact Or.inr (Or.inr (Or.inl h))
      · exact Or.inr (Or.inr (Or.inr h))
  · intro body engine ts
    unfold pull_endpoint
    rcases validate_json_payload_shapes ["model"] body ts with
      ⟨data, hd⟩ | ⟨resp, hr, hshape⟩
    · rw [hd]
      rcases pull_handler_shape data engine ts with h | h
      · exact Or.inl h
      · exact Or.inr (Or.inl h)
    · rw [hr]
      rcases hshape with h | h | h
      · exact Or.inr (Or.inl h)
      · exact Or.inr (Or.inr (Or.inl h))
      · exact Or.inr (Or.inr (Or.inr h))
  · intro cfg ip ok
    exact ⟨rfl, rfl, rfl⟩
  · intro ts
    exact rfl
  · intro ts
    exact rfl
  · intro ts
    exact rfl

